import Mathlib

/-!
Verification of the slot-assistant RAG pipeline.

The definitions below are a shallow embedding of the Python sources:
  - `src/slot_assistant/rag/ast_loader.py`  (AST walker, chunk builder, fallback loader)
  - `src/slot_assistant/rag/loader.py`      (directory loader, simple path)
  - `src/slot_assistant/rag/store.py`       (vector store `add_documents`)
  - `src/slot_assistant/api/server.py`      (chat endpoint: retrieval, dedup, sources)
  - `src/slot_assistant/cli/main.py`        (ask command retrieval context)
External collaborators (the file system, ChromaDB, the text splitter, the LLM
backend) enter as explicit parameters or, where noted, as definitions modelled
from the specification.
-/

/-! ## Basic string helpers mirroring the Python primitives -/

/-- Python's whitespace class for `str.strip()` (space, tab, LF, CR, VT, FF). -/
def isPySpace (c : Char) : Bool :=
  c == ' ' || c == '\t' || c == '\n' || c == '\r' || c == '\x0b' || c == '\x0c'

/-- Python `s.strip()`: remove leading and trailing whitespace. -/
def pyStrip (s : String) : String :=
  String.mk (((s.toList.dropWhile isPySpace).reverse.dropWhile isPySpace).reverse)

/-- Python slice `code[a:b]` on a `str` (character indexing, clamped). -/
def sliceChars (code : String) (a b : Nat) : String :=
  String.mk ((code.toList.drop a).take (b - a))

/-- Python `sep.join(parts)`. -/
def pyJoin (sep : String) : List String → String
  | [] => ""
  | [x] => x
  | x :: y :: rest => x ++ sep ++ pyJoin sep (y :: rest)

/-- `needle` is a prefix of `hay` (over character lists). -/
def isSubAt : List Char → List Char → Bool
  | [], _ => true
  | _ :: _, [] => false
  | a :: as, b :: bs => a == b && isSubAt as bs

/-- Python `needle in hay` substring test over character lists. -/
def containsSub (hay needle : List Char) : Bool :=
  match hay with
  | [] => needle.isEmpty
  | _ :: t => isSubAt needle hay || containsSub t needle

/-- `s` begins with the string `b` (the first `b.toList.length` characters of
`s` are exactly `b`). -/
def strBegins (s b : String) : Bool :=
  s.toList.take b.toList.length == b.toList

/-! ## Data model: LangChain `Document` with the metadata keys the loaders set.

Python stores metadata as a dict; keys that a given loading path does not set
are modelled as `none`-valued `Option` fields. -/

structure Metadata where
  source : String
  filename : String
  extension : String
  node_type : Option String := none
  name : Option String := none
  parent_class : Option String := none
  start_line : Option Nat := none
  end_line : Option Nat := none
  language : Option String := none
  relative_path : Option String := none
  parse_method : String
deriving Repr, DecidableEq

structure Document where
  page_content : String
  metadata : Metadata
deriving Repr, DecidableEq

/-- The `(path, name, suffix)` view of a `pathlib.Path` used by the loaders:
`str(file_path)`, `file_path.name`, `file_path.suffix`. -/
structure FileInfo where
  path : String
  name : String
  ext : String
deriving Repr, DecidableEq

/-! ## Tree-sitter node view (`ast_loader.py`).

A node has a `type`, a `text` (used only for identifier leaves), byte and row
spans, and ordered children. The mutual inductive keeps all recursions over
trees structural. -/

mutual
inductive TSNode where
  | mk (ty : String) (text : String)
       (startByte endByte startRow endRow : Nat)
       (children : TSForest)

inductive TSForest where
  | nil
  | cons (head : TSNode) (tail : TSForest)
end

def TSNode.ty : TSNode → String
  | .mk t _ _ _ _ _ _ => t

def TSNode.text : TSNode → String
  | .mk _ tx _ _ _ _ _ => tx

def TSNode.startByte : TSNode → Nat
  | .mk _ _ sb _ _ _ _ => sb

def TSNode.endByte : TSNode → Nat
  | .mk _ _ _ eb _ _ _ => eb

def TSNode.startRow : TSNode → Nat
  | .mk _ _ _ _ sr _ _ => sr

def TSNode.endRow : TSNode → Nat
  | .mk _ _ _ _ _ er _ => er

def TSNode.children : TSNode → TSForest
  | .mk _ _ _ _ _ _ cs => cs

/-! ## Chunk classifier tables (`CHUNK_NODE_TYPES`, `CONTAINER_NODE_TYPES`) -/

/-- `CHUNK_NODE_TYPES` from `ast_loader.py`: node types extracted as chunks. -/
def CHUNK_NODE_TYPES (lang : String) : List String :=
  if lang == "javascript" then
    ["function_declaration", "class_declaration", "method_definition",
     "export_statement", "lexical_declaration", "variable_declaration",
     "arrow_function", "expression_statement"]
  else if lang == "typescript" then
    ["function_declaration", "class_declaration", "method_definition",
     "export_statement", "lexical_declaration", "variable_declaration",
     "arrow_function", "expression_statement", "interface_declaration",
     "type_alias_declaration", "enum_declaration"]
  else if lang == "python" then
    ["function_definition", "class_definition", "decorated_definition"]
  else []

/-- `CONTAINER_NODE_TYPES` from `ast_loader.py`: node types whose children are
recursed into for further chunks. -/
def CONTAINER_NODE_TYPES (lang : String) : List String :=
  if lang == "javascript" then ["class_declaration", "class_body"]
  else if lang == "typescript" then ["class_declaration", "class_body"]
  else if lang == "python" then ["class_definition"]
  else []

/-! ## Name extraction (`ASTCodeLoader._get_node_name`) -/

/-- Identifier-like node types checked by the first loop of `_get_node_name`. -/
def identKinds : List String := ["identifier", "property_identifier", "type_identifier"]

/-- The needle of the substring test `'declaration' in child.type`. -/
def declNeedle : List Char := "declaration".toList

/-- First loop of `_get_node_name`: first direct child with an
identifier-like type, returning its text. -/
def findIdentText : TSForest → Option String
  | .nil => none
  | .cons c rest =>
      if identKinds.contains c.ty then some c.text else findIdentText rest

mutual
/-- `ASTCodeLoader._get_node_name`: direct identifier-like child, else recurse
into the first child whose type contains "declaration", else `"anonymous"`. -/
def getNodeName : TSNode → String
  | .mk _ _ _ _ _ _ cs =>
      match findIdentText cs with
      | some t => t
      | none => nameFromDecl cs

/-- Second loop of `_get_node_name`: recurse into the first child whose type
contains "declaration". -/
def nameFromDecl : TSForest → String
  | .nil => "anonymous"
  | .cons c rest =>
      if containsSub c.ty.toList declNeedle then getNodeName c else nameFromDecl rest
end

/-! ## Chunk builder (`ASTCodeLoader._make_chunk`) -/

/-- `ASTCodeLoader._make_chunk`: slice the node's byte range out of the code,
reject slices whose stripped length is below 10, otherwise build the enriched
chunk (header comment lines + raw slice) and its metadata. -/
def makeChunk (code : String) (fi : FileInfo) (lang : String)
    (parent : Option String) (node : TSNode) : Option Document :=
  let chunkCode := sliceChars code node.startByte node.endByte
  if (pyStrip chunkCode).length < 10 then none
  else
    let nm := getNodeName node
    let parts :=
      ["// File: " ++ fi.name]
      ++ (match parent with
          | some p => if p != "" && p != "anonymous" then ["// Class: " ++ p] else []
          | none => [])
      ++ (if nm != "" && nm != "anonymous" then ["// " ++ node.ty ++ ": " ++ nm] else [])
    some
      { page_content := pyJoin "\n" parts ++ "\n" ++ chunkCode,
        metadata :=
          { source := fi.path, filename := fi.name, extension := fi.ext,
            node_type := some node.ty, name := some nm,
            parent_class := some (parent.getD ""),
            start_line := some (node.startRow + 1),
            end_line := some (node.endRow + 1),
            language := some lang, relative_path := none,
            parse_method := "ast" } }

/-! ## AST walker (`ASTCodeLoader._walk_tree`) -/

mutual
/-- `ASTCodeLoader._walk_tree`: iterate over the children of the current node
(the Python function loops over `node.children`). -/
def walkChildren (code : String) (fi : FileInfo) (lang : String)
    (parent : Option String) : TSForest → List Document
  | .nil => []
  | .cons c rest =>
      walkChild code fi lang parent c ++ walkChildren code fi lang parent rest

/-- One child of `_walk_tree`'s loop: containers emit a chunk and are recursed
into with the container's extracted name as the new parent; chunk-typed nodes
emit a chunk only; everything else is walked through transparently. -/
def walkChild (code : String) (fi : FileInfo) (lang : String)
    (parent : Option String) : TSNode → List Document
  | .mk ty tx sb eb sr er cs =>
      if (CONTAINER_NODE_TYPES lang).contains ty then
        (match makeChunk code fi lang parent (.mk ty tx sb eb sr er cs) with
         | some d => [d]
         | none => [])
        ++ walkChildren code fi lang (some (getNodeName (.mk ty tx sb eb sr er cs))) cs
      else if (CHUNK_NODE_TYPES lang).contains ty then
        (match makeChunk code fi lang parent (.mk ty tx sb eb sr er cs) with
         | some d => [d]
         | none => [])
      else walkChildren code fi lang parent cs
end

/-- `_walk_tree(tree.root_node, ..., parent_name=None)` as called from
`load_file`: walk the root's children with no enclosing name. -/
def walkTree (code : String) (fi : FileInfo) (lang : String) (root : TSNode) :
    List Document :=
  walkChildren code fi lang none root.children

/-! ## Fallback loader (`ASTCodeLoader._load_simple`).

Reading the file is an external effect; its outcome (decoded text, or any
raised exception) is the `readResult` parameter. -/

/-- `ASTCodeLoader._load_simple`: one whole-file chunk with a filename comment
header on success, the empty list when reading/decoding fails. -/
def loadSimple (fi : FileInfo) (readResult : Except Unit String) : List Document :=
  match readResult with
  | .ok content =>
      [{ page_content := "// File: " ++ fi.name ++ "\n" ++ content,
         metadata :=
           { source := fi.path, filename := fi.name, extension := fi.ext,
             parse_method := "simple" } }]
  | .error _ => []

/-- The simple-loading branch of `DirectoryLoader.load` (`loader.py`): the
document built for a successfully read non-AST file. -/
def loaderSimpleDoc (fi : FileInfo) (relPath : String) (content : String) : Document :=
  { page_content := "// File: " ++ fi.name ++ "\n" ++ content,
    metadata :=
      { source := fi.path, filename := fi.name, extension := fi.ext,
        relative_path := some relPath, parse_method := "simple" } }

/-! ## Corpus assembly and storage (`store.py`, `VectorStore.add_documents`).

ChromaDB's `collection.add` is the external sink; the final stored state is
modelled as the concatenated sequence of `(id, text, metadata)` triples passed
to it across the batches. -/

/-- Modelled from the spec: the text splitter used by `add_documents` is the
external `RecursiveCharacterTextSplitter` from LangChain, which is not part of
this repository. Per the spec (§4.5) it produces fixed-size overlapping text
windows; the window size and overlap are the configuration constants
`chunk_size=1000`, `chunk_overlap=200` set in `VectorStore.__init__`, so each
step advances by 800 characters. The `fuel` argument only bounds the recursion
and is always supplied as the text length, which suffices because every step
consumes 800 characters. -/
def splitGo : Nat → List Char → List (List Char)
  | 0, l => [l]
  | fuel + 1, l =>
      if l.length ≤ 1000 then [l]
      else l.take 1000 :: splitGo fuel (l.drop 800)

/-- The window texts of one document's content. -/
def splitStrings (s : String) : List String :=
  (splitGo s.toList.length s.toList).map String.mk

/-- Splitting one document: each window keeps the source document's metadata
(as LangChain's splitter does). -/
def splitDoc (d : Document) : List Document :=
  (splitStrings d.page_content).map (fun t => { page_content := t, metadata := d.metadata })

/-- One batch of `add_documents`: ids `doc_i, doc_(i+1), ...` zipped with the
batch's texts and metadatas (`ids = [f"doc_{j}" for j in range(i, i + len(batch))]`). -/
def batchTriples (i : Nat) : List Document → List (String × String × Metadata)
  | [] => []
  | c :: rest =>
      ("doc_" ++ toString i, c.page_content, c.metadata) :: batchTriples (i + 1) rest

/-- The batching loop of `add_documents` (`for i in range(0, len(chunks), batch_size)`)
with batch size `b+1`. The `fuel` argument only bounds the recursion; it is
always supplied as the chunk-list length, which suffices because every batch
consumes at least one chunk. -/
def addBatchesGo (b : Nat) : Nat → Nat → List Document → List (String × String × Metadata)
  | 0, _, _ => []
  | _ + 1, _, [] => []
  | fuel + 1, i, c :: rest =>
      batchTriples i (c :: rest.take b)
      ++ addBatchesGo b fuel (i + (b + 1)) (rest.drop b)

/-- `VectorStore.add_documents` with batch size `b+1`: split every incoming
document with the text splitter, then upload the chunks in batches with
positional ids. Returns the full stored `(id, text, metadata)` sequence. -/
def add_documents (documents : List Document) (b : Nat) : List (String × String × Metadata) :=
  let chunks := documents.flatMap splitDoc
  addBatchesGo b chunks.length 0 chunks

/-- The id sequence `doc_i, doc_(i+1), ..., doc_(i+n-1)`. -/
def idsFrom (i : Nat) : Nat → List String
  | 0 => []
  | n + 1 => ("doc_" ++ toString i) :: idsFrom (i + 1) n

/-- The `(id, text)` projection of one batch. -/
def tagTriples (i : Nat) : List String → List (String × String)
  | [] => []
  | t :: rest => ("doc_" ++ toString i, t) :: tagTriples (i + 1) rest

/-- The `(id, text)` projection of the batching loop, over texts only. -/
def tagGo (b : Nat) : Nat → Nat → List String → List (String × String)
  | 0, _, _ => []
  | _ + 1, _, [] => []
  | fuel + 1, i, t :: rest =>
      tagTriples i (t :: rest.take b) ++ tagGo b fuel (i + (b + 1)) (rest.drop b)

/-! ## Retrieval assembly (`server.py`, `chat`) -/

/-- The metadata view the chat endpoint reads from a query hit
(`meta.get('filename')`, `meta.get('name')`, `meta.get('start_line')`,
`meta.get('end_line')`, `meta.get('node_type')`): absent keys are `none`. -/
structure RMeta where
  filename : Option String
  name : Option String
  start_line : Option Nat
  end_line : Option Nat
  node_type : Option String
deriving Repr, DecidableEq

/-- One query hit: document text paired with its metadata. `none` models a
falsy (`None` or empty) metadata entry, which the endpoint skips. -/
abbrev Hit := String × Option RMeta

/-- The deduplication key built at `server.py:138`:
`(meta.get('filename'), meta.get('name'), meta.get('start_line'), meta.get('end_line'))`. -/
def dedupKey (m : RMeta) : Option String × Option String × Option Nat × Option Nat :=
  (m.filename, m.name, m.start_line, m.end_line)

/-- The `unique_pairs` loop of `chat`: keep the first hit for each key, skip
hits with falsy metadata, drop later hits whose key was already seen. -/
def uniqueLoop (seen : List (Option String × Option String × Option Nat × Option Nat)) :
    List Hit → List (String × RMeta)
  | [] => []
  | (_, none) :: rest => uniqueLoop seen rest
  | (doc, some m) :: rest =>
      if dedupKey m ∈ seen then uniqueLoop seen rest
      else (doc, m) :: uniqueLoop (dedupKey m :: seen) rest

/-- The `source_info` annotation: `[filename::name]` when the name is truthy
and not `anonymous`, else `[filename]`; a missing filename prints `unknown`. -/
def sourceInfo (m : RMeta) : String :=
  let fn := m.filename.getD "unknown"
  match m.name with
  | some n => if n != "" && n != "anonymous" then "[" ++ fn ++ "::" ++ n ++ "]" else "[" ++ fn ++ "]"
  | none => "[" ++ fn ++ "]"

/-- The per-chunk lines of the context (`--- Code Chunk {i+1} {source_info} ---`). -/
def chunksBlock (i : Nat) : List (String × RMeta) → String
  | [] => ""
  | (doc, m) :: rest =>
      "\n--- Code Chunk " ++ toString (i + 1) ++ " " ++ sourceInfo m ++ " ---\n"
      ++ doc ++ "\n" ++ chunksBlock (i + 1) rest

/-- The `"=" * 60` separator line. -/
def eqLine : String := String.mk (List.replicate 60 '=')

/-- The full RAG context block appended by `chat` when the query returned
documents: header with the unique-chunk count, the chunks, and the footer. -/
def ragBlock (pairs : List (String × RMeta)) : String :=
  "\n\n=== " ++ toString pairs.length ++ " UNIQUE CODE CHUNKS ===\n"
  ++ chunksBlock 0 pairs
  ++ "\n" ++ eqLine ++ "\n"
  ++ "END - YOU MUST USE ALL FILES ABOVE IN YOUR ANSWER\n"
  ++ eqLine ++ "\n\n"

/-- One entry of the `sources` list returned to the UI. A falsy (`0`)
`start_line` yields no line range, and a missing `end_line` prints `None`
(Python f-string of `None`). -/
structure SourceEntry where
  filename : String
  name : Option String
  nodeType : Option String
  lines : Option String
deriving Repr, DecidableEq

/-- Python `f"{x}"` of an optional number. -/
def optNatStr : Option Nat → String
  | some n => toString n
  | none => "None"

/-- The source object built for one metadata entry (`server.py:191`). -/
def mkSource (m : RMeta) : SourceEntry :=
  { filename := m.filename.getD "unknown",
    name := m.name,
    nodeType := m.node_type,
    lines :=
      match m.start_line with
      | some s => if s == 0 then none else some (toString s ++ "-" ++ optNatStr m.end_line)
      | none => none }

/-- The sources-extraction loop of `chat`: iterate over all hit metadatas,
skip falsy ones, keep the first entry per dedup key. -/
def sourcesLoop (seen : List (Option String × Option String × Option Nat × Option Nat)) :
    List (Option RMeta) → List SourceEntry
  | [] => []
  | none :: rest => sourcesLoop seen rest
  | some m :: rest =>
      if dedupKey m ∈ seen then sourcesLoop seen rest
      else mkSource m :: sourcesLoop (dedupKey m :: seen) rest

/-! ## The chat endpoint (`server.py`, `chat`).

The vector store is external: its `count()` call and its `query` call each
either return a value or raise, modelled with `Except`. The LLM backend is a
function from message and context to a result or a raised error. -/

inductive GwError where
  | connection
  | timeout
  | internal
deriving Repr, DecidableEq

structure ChatRequest where
  message : String
  context : Option String
  use_rag : Bool
deriving Repr, DecidableEq

structure ChatResponse where
  response : String
  context_used : String
  sources : List SourceEntry
deriving Repr, DecidableEq

/-- The user-context block (`if request.context:` is Python truthiness, so an
empty string adds nothing). -/
def userCtxBlock : Option String → String
  | some c =>
      if c != "" then "Context provided:\n```\n" ++ c ++ "\n```\n\n" else ""
  | none => ""

/-- The RAG phase of `chat` (the `try` block): returns the context fragment to
append and the `results` variable. Any gateway failure (at `count` or `query`)
is caught, leaving the context fragment empty and `results = None`. A count of
zero skips the query entirely. -/
def ragPhase (count : Except GwError Nat) (query : Except GwError (List Hit)) :
    String × Option (List Hit) :=
  match count with
  | .error _ => ("", none)
  | .ok n =>
      if n > 0 then
        match query with
        | .error _ => ("", none)
        | .ok hits =>
            if hits.isEmpty then ("", some hits)
            else (ragBlock (uniqueLoop [] hits), some hits)
      else ("", none)

/-- The `chat` endpoint: build the context, call the LLM, extract sources.
An LLM failure becomes the HTTP 500 error; gateway failures never do. -/
def chat (req : ChatRequest) (count : Except GwError Nat)
    (query : Except GwError (List Hit))
    (llm : String → String → Except String String) :
    Except (Nat × String) ChatResponse :=
  let ctx0 := userCtxBlock req.context
  let rag := if req.use_rag then ragPhase count query else ("", none)
  let context := ctx0 ++ rag.1
  match llm req.message context with
  | .error e => .error (500, e)
  | .ok resp =>
      let sources :=
        if req.use_rag then
          match rag.2 with
          | some hits => sourcesLoop [] (hits.map Prod.snd)
          | none => []
        else []
      .ok { response := resp, context_used := context, sources := sources }

/-- The retrieval context of the CLI `ask` command (`cli/main.py`): when the
store is empty, RAG is turned off before any query; otherwise the returned
document texts are joined with blank lines (an empty result list is falsy and
leaves the context empty). -/
def askRagContext (count : Nat) (queryDocs : List String) : String :=
  if count == 0 then ""
  else if queryDocs.isEmpty then ""
  else pyJoin "\n\n" queryDocs

/-! ## Concrete instances used by the concrete theorems below -/

/-- A leaf tree-sitter node (keyword, punctuation, identifier). -/
def tsLeaf (k t : String) : TSNode := .mk k t 0 0 0 0 .nil

/-- An AST-extracted function chunk, as produced for file `src/a.ts`. -/
def docFoo : Document :=
  { page_content := "function foo() \x7b return 1; \x7d",
    metadata :=
      { source := "src/a.ts", filename := "a.ts", extension := ".ts",
        node_type := some "function_declaration", name := some "foo",
        parent_class := some "", start_line := some 1, end_line := some 3,
        language := some "typescript", parse_method := "ast" } }

/-- An AST-extracted function chunk, as produced for file `src/b.ts`. -/
def docBar : Document :=
  { page_content := "function bar() \x7b return 2; \x7d",
    metadata :=
      { source := "src/b.ts", filename := "b.ts", extension := ".ts",
        node_type := some "function_declaration", name := some "bar",
        parent_class := some "", start_line := some 1, end_line := some 3,
        language := some "typescript", parse_method := "ast" } }

/-- An AST-extracted class chunk whose content (1200 characters) exceeds the
splitter's window size of 1000. -/
def astBig : Document :=
  { page_content := String.mk (List.replicate 1200 'a'),
    metadata :=
      { source := "src/big.ts", filename := "big.ts", extension := ".ts",
        node_type := some "class_declaration", name := some "Big",
        parent_class := some "", start_line := some 1, end_line := some 40,
        language := some "typescript", parse_method := "ast" } }

/-- Demo source whose slice `[0,5)` strips to 5 characters and whose slice
`[6,56)` strips to 50 characters. -/
def demoCode : String := "x=2+1 " ++ String.mk (List.replicate 50 'y')

def demoFi : FileInfo := { path := "src/demo.ts", name := "demo.ts", ext := ".ts" }

/-- A candidate whose trimmed source slice has 5 characters. -/
def demoSmallNode : TSNode := .mk "expression_statement" "" 0 5 0 0 .nil

/-- A candidate whose trimmed source slice has 50 characters. -/
def demoBigNode : TSNode := .mk "expression_statement" "" 6 56 0 0 .nil

/-- The source text
`class Foo { aaaa() { return 1111; } bbbb() { return 2222; } }` (javascript). -/
def jsCexCode : String :=
  "class Foo \x7b aaaa() \x7b return 1111; \x7d bbbb() \x7b return 2222; \x7d \x7d"

/-- The `class_body` node of `jsCexCode` as tree-sitter parses it: brace,
two `method_definition` children, brace. -/
def jsCexBody : TSNode :=
  .mk "class_body" "" 10 61 0 0
    (.cons (.mk "\x7b" "\x7b" 10 11 0 0 .nil)
      (.cons (.mk "method_definition" "" 12 35 0 0
          (.cons (.mk "property_identifier" "aaaa" 12 16 0 0 .nil)
            (.cons (.mk "formal_parameters" "" 16 18 0 0 .nil)
              (.cons (.mk "statement_block" "" 19 35 0 0 .nil) .nil))))
        (.cons (.mk "method_definition" "" 36 59 0 0
            (.cons (.mk "property_identifier" "bbbb" 36 40 0 0 .nil)
              (.cons (.mk "formal_parameters" "" 40 42 0 0 .nil)
                (.cons (.mk "statement_block" "" 43 59 0 0 .nil) .nil))))
          (.cons (.mk "\x7d" "\x7d" 60 61 0 0 .nil) .nil))))

/-- The `class_declaration` node of `jsCexCode`. -/
def jsCexClass : TSNode :=
  .mk "class_declaration" "" 0 61 0 0
    (.cons (.mk "class" "class" 0 5 0 0 .nil)
      (.cons (.mk "identifier" "Foo" 6 9 0 0 .nil)
        (.cons jsCexBody .nil)))

/-- The program root of `jsCexCode`. -/
def jsCexProgram : TSNode := .mk "program" "" 0 61 0 0 (.cons jsCexClass .nil)

def jsCexFi : FileInfo := { path := "src/foo.js", name := "foo.js", ext := ".js" }

/-- The tree-sitter shape of a Python method: `def` keyword, identifier,
parameters, colon, body block. -/
def pyMethodNode (nm : String) (a b : Nat) : TSNode :=
  .mk "function_definition" "" a b 0 0
    (.cons (tsLeaf "def" "def")
      (.cons (tsLeaf "identifier" nm)
        (.cons (tsLeaf "parameters" "")
          (.cons (tsLeaf ":" ":")
            (.cons (tsLeaf "block" "") .nil)))))

/-- The tree-sitter shape of a Python class with two methods: `class` keyword,
identifier, colon, body block holding the two `function_definition` nodes. -/
def pyClassNode (cls m1 m2 : String) (ca cb a1 b1 a2 b2 : Nat) : TSNode :=
  .mk "class_definition" "" ca cb 0 0
    (.cons (tsLeaf "class" "class")
      (.cons (tsLeaf "identifier" cls)
        (.cons (tsLeaf ":" ":")
          (.cons (.mk "block" "" 0 0 0 0
              (.cons (pyMethodNode m1 a1 b1) (.cons (pyMethodNode m2 a2 b2) .nil)))
            .nil))))

/-- A Python module whose only top-level statement is the two-method class. -/
def pyModuleNode (cls m1 m2 : String) (ca cb a1 b1 a2 b2 : Nat) : TSNode :=
  .mk "module" "" 0 0 0 0 (.cons (pyClassNode cls m1 m2 ca cb a1 b1 a2 b2) .nil)

/-- The tree-sitter shape of `export function <fname>(...) {...}`: an
`export_statement` wrapping a `function_declaration`. -/
def jsExportNode (fname : String) (ea eb fa fb : Nat) : TSNode :=
  .mk "export_statement" "" ea eb 0 0
    (.cons (tsLeaf "export" "export")
      (.cons (.mk "function_declaration" "" fa fb 0 0
          (.cons (tsLeaf "function" "function")
            (.cons (tsLeaf "identifier" fname)
              (.cons (tsLeaf "formal_parameters" "")
                (.cons (tsLeaf "statement_block" "") .nil)))))
        .nil))

/-- A program whose only top-level statement is the export wrapper. -/
def jsExportProgram (fname : String) (ea eb fa fb : Nat) : TSNode :=
  .mk "program" "" 0 0 0 0 (.cons (jsExportNode fname ea eb fa fb) .nil)

/-- Replace the `parse_method` metadata field. -/
def withParseMethod (m : Metadata) (pm : String) : Metadata :=
  { m with parse_method := pm }

/-! ## Helper lemmas -/

/-- The ids of one batch are the consecutive `doc_` ids from its start index. -/
theorem batchTriples_map_fst (l : List Document) : ∀ i : Nat,
    (batchTriples i l).map Prod.fst = idsFrom i l.length := by
  induction l with
  | nil => intro i; rfl
  | cons c rest ih => intro i; simp [batchTriples, idsFrom, ih]

/-- Consecutive id ranges concatenate. -/
theorem idsFrom_append (m : Nat) : ∀ i k : Nat,
    idsFrom i m ++ idsFrom (i + m) k = idsFrom i (m + k) := by
  induction m with
  | zero => intro i k; simp [idsFrom]
  | succ m ih =>
      intro i k
      have h1 : i + (m + 1) = (i + 1) + m := by omega
      have h2 : m + 1 + k = (m + k) + 1 := by omega
      simp only [idsFrom, h1, h2, List.cons_append, ih]

/-- With sufficient fuel, the batching loop assigns the consecutive `doc_` ids
starting at the running index, regardless of batch size or chunk contents. -/
theorem addBatchesGo_map_fst (b : Nat) : ∀ (fuel i : Nat) (chunks : List Document),
    chunks.length ≤ fuel →
    (addBatchesGo b fuel i chunks).map Prod.fst = idsFrom i chunks.length := by
  intro fuel
  induction fuel with
  | zero =>
      intro i chunks h
      have : chunks = [] := List.length_eq_zero.mp (Nat.le_zero.mp h)
      subst this; rfl
  | succ fuel ih =>
      intro i chunks h
      cases chunks with
      | nil => rfl
      | cons c rest =>
          have hlen : rest.length ≤ fuel := by simp at h; omega
          have hrec : (rest.drop b).length ≤ fuel := by
            rw [List.length_drop]; omega
          rw [show addBatchesGo b (fuel + 1) i (c :: rest)
                = batchTriples i (c :: rest.take b)
                  ++ addBatchesGo b fuel (i + (b + 1)) (rest.drop b) from rfl,
              List.map_append, batchTriples_map_fst, ih _ _ hrec]
          have ht : (c :: rest.take b).length = min b rest.length + 1 := by
            simp [List.length_take]
          rw [ht, List.length_drop, List.length_cons]
          by_cases hb : b ≤ rest.length
          · have hmin : min b rest.length = b := by omega
            rw [hmin]
            have := idsFrom_append (b + 1) i (rest.length - b)
            rw [show (b + 1) + (rest.length - b) = rest.length + 1 from by omega] at this
            exact this
          · have hmin : min b rest.length = rest.length := by omega
            have hz : rest.length - b = 0 := by omega
            rw [hmin, hz]
            simp [idsFrom]

/-- The `(id, text)` projection of one batch only depends on the texts. -/
theorem batchTriples_idtext (l : List Document) : ∀ i : Nat,
    (batchTriples i l).map (fun t => (t.1, t.2.1))
      = tagTriples i (l.map Document.page_content) := by
  induction l with
  | nil => intro i; rfl
  | cons c rest ih => intro i; simp [batchTriples, tagTriples, ih]

/-- The `(id, text)` projection of the batching loop only depends on the texts. -/
theorem addBatchesGo_idtext (b : Nat) : ∀ (fuel i : Nat) (chunks : List Document),
    (addBatchesGo b fuel i chunks).map (fun t => (t.1, t.2.1))
      = tagGo b fuel i (chunks.map Document.page_content) := by
  intro fuel
  induction fuel with
  | zero => intro i chunks; rfl
  | succ fuel ih =>
      intro i chunks
      cases chunks with
      | nil => rfl
      | cons c rest =>
          rw [show addBatchesGo b (fuel + 1) i (c :: rest)
                = batchTriples i (c :: rest.take b)
                  ++ addBatchesGo b fuel (i + (b + 1)) (rest.drop b) from rfl,
              List.map_append, batchTriples_idtext, ih]
          rw [show (c :: rest).map Document.page_content
                = c.page_content :: rest.map Document.page_content from rfl]
          rw [show tagGo b (fuel + 1) i (c.page_content :: rest.map Document.page_content)
                = tagTriples i (c.page_content :: (rest.map Document.page_content).take b)
                  ++ tagGo b fuel (i + (b + 1)) ((rest.map Document.page_content).drop b) from rfl]
          rw [← List.map_take, ← List.map_drop]
          rfl

/-- A string begins with its own left append factor. -/
theorem strBegins_append (b t : String) : strBegins (b ++ t) b = true := by
  unfold strBegins
  rw [show (b ++ t).toList = b.toList ++ t.toList from String.data_append b t]
  rw [List.take_left]
  exact beq_self_eq_true _

/-- A joined nonempty list of parts begins with its first part. -/
theorem pyJoin_cons (sep x : String) (xs : List String) :
    ∃ r, pyJoin sep (x :: xs) = x ++ r := by
  cases xs with
  | nil => exact ⟨"", (String.append_empty x).symm⟩
  | cons y ys =>
      exact ⟨sep ++ pyJoin sep (y :: ys), by simp [pyJoin, String.append_assoc]⟩

/-- Every chunk built by `makeChunk` begins with the filename comment line. -/
theorem makeChunk_begins (code : String) (fi : FileInfo) (lang : String)
    (parent : Option String) (node : TSNode) :
    (makeChunk code fi lang parent node).all
      (fun d => strBegins d.page_content ("// File: " ++ fi.name)) = true := by
  unfold makeChunk
  by_cases h : (pyStrip (sliceChars code node.startByte node.endByte)).length < 10
  · simp [h]
  · simp only [h, if_false, Option.all_some]
    generalize hb : "// File: " ++ fi.name = base
    obtain ⟨r, hr⟩ := pyJoin_cons "\n" base
      ((match parent with
        | some p => if p != "" && p != "anonymous" then ["// Class: " ++ p] else []
        | none => [])
       ++ (if getNodeName node != "" && getNodeName node != "anonymous"
           then ["// " ++ node.ty ++ ": " ++ getNodeName node] else []))
    simp only [List.singleton_append, List.cons_append, List.nil_append] at hr ⊢
    rw [hr, String.append_assoc, String.append_assoc]
    exact strBegins_append base (r ++ ("\n" ++ sliceChars code node.startByte node.endByte))

/-- Every chunk emitted by the walker begins with the filename comment line
(all of its outputs come from `makeChunk`). -/
theorem walkChildren_begins (code : String) (fi : FileInfo) (lang : String) :
    ∀ (parent : Option String) (f : TSForest),
      (walkChildren code fi lang parent f).all
        (fun d => strBegins d.page_content ("// File: " ++ fi.name)) = true := by
  intro parent f
  induction parent, f using walkChildren.induct code fi lang
    (motive_2 := fun parent n =>
      (walkChild code fi lang parent n).all
        (fun d => strBegins d.page_content ("// File: " ++ fi.name)) = true) with
  | case1 parent ty tx sb eb sr er cs hcont ih =>
      have hc : ty ∈ CONTAINER_NODE_TYPES lang := by simpa using hcont
      have hmk := makeChunk_begins code fi lang parent (.mk ty tx sb eb sr er cs)
      cases hm : makeChunk code fi lang parent (.mk ty tx sb eb sr er cs) with
      | none => simp [walkChild, hc, hm, ih]
      | some d =>
          rw [hm] at hmk
          simp only [Option.all_some] at hmk
          simp [walkChild, hc, hm, hmk, ih]
  | case2 parent ty tx sb eb sr er cs hcont hchunk d hm =>
      have hc : ty ∉ CONTAINER_NODE_TYPES lang := by simpa using hcont
      have hk : ty ∈ CHUNK_NODE_TYPES lang := by simpa using hchunk
      have hmk := makeChunk_begins code fi lang parent (.mk ty tx sb eb sr er cs)
      rw [hm] at hmk
      simp only [Option.all_some] at hmk
      simp [walkChild, hc, hk, hm, hmk]
  | case3 parent ty tx sb eb sr er cs hcont hchunk hm =>
      have hc : ty ∉ CONTAINER_NODE_TYPES lang := by simpa using hcont
      have hk : ty ∈ CHUNK_NODE_TYPES lang := by simpa using hchunk
      simp [walkChild, hc, hk, hm]
  | case4 parent ty tx sb eb sr er cs hcont hchunk ih =>
      have hc : ty ∉ CONTAINER_NODE_TYPES lang := by simpa using hcont
      have hk : ty ∉ CHUNK_NODE_TYPES lang := by simpa using hchunk
      simp [walkChild, hc, hk, ih]
  | case5 parent => rfl
  | case6 parent c rest ih1 ih2 =>
      rw [walkChildren]
      simp [List.all_append, ih1, ih2]

/-! ## Claim theorems -/

/-- C1 (counterexample): two hits that share filename, name and start_line but
differ in end_line are BOTH kept by the chat endpoint's deduplication — in the
unique-pairs list and in the source list — because the code's key includes
end_line. The claim that exactly one is kept is false. -/
theorem dedup_key_includes_end_line_cex :
    (RMeta.filename ⟨some "gp.ts", some "GamePlay", some 10, some 20, some "class_declaration"⟩
       = RMeta.filename ⟨some "gp.ts", some "GamePlay", some 10, some 25, some "class_declaration"⟩
     ∧ RMeta.name ⟨some "gp.ts", some "GamePlay", some 10, some 20, some "class_declaration"⟩
       = RMeta.name ⟨some "gp.ts", some "GamePlay", some 10, some 25, some "class_declaration"⟩
     ∧ RMeta.start_line ⟨some "gp.ts", some "GamePlay", some 10, some 20, some "class_declaration"⟩
       = RMeta.start_line ⟨some "gp.ts", some "GamePlay", some 10, some 25, some "class_declaration"⟩
     ∧ RMeta.end_line ⟨some "gp.ts", some "GamePlay", some 10, some 20, some "class_declaration"⟩
       ≠ RMeta.end_line ⟨some "gp.ts", some "GamePlay", some 10, some 25, some "class_declaration"⟩)
    ∧ (uniqueLoop []
        [("chunk one", some ⟨some "gp.ts", some "GamePlay", some 10, some 20, some "class_declaration"⟩),
         ("chunk two", some ⟨some "gp.ts", some "GamePlay", some 10, some 25, some "class_declaration"⟩)]).length = 2
    ∧ (sourcesLoop []
        [some ⟨some "gp.ts", some "GamePlay", some 10, some 20, some "class_declaration"⟩,
         some ⟨some "gp.ts", some "GamePlay", some 10, some 25, some "class_declaration"⟩]).length = 2 := by
  decide

/-- C1 (amended): the Retrieval Assembler deduplicates by the full key
`(filename, name, start_line, end_line)`: when two hits share all four
components, exactly the first (best-ranked) one is kept, and the later
duplicate is dropped both from the unique chunk list that feeds the context
text and from the source list. -/
theorem dedup_by_full_identity_key (d1 d2 : String) (m1 m2 : RMeta)
    (rest : List Hit) (rest2 : List (Option RMeta))
    (h : dedupKey m1 = dedupKey m2) :
    uniqueLoop [] ((d1, some m1) :: (d2, some m2) :: rest)
      = (d1, m1) :: uniqueLoop [dedupKey m1] rest
    ∧ sourcesLoop [] (some m1 :: some m2 :: rest2)
      = mkSource m1 :: sourcesLoop [dedupKey m1] rest2 := by
  constructor
  · simp [uniqueLoop, h]
  · simp [sourcesLoop, h]

/-- C1 (witness): the amended dedup theorem at a concrete duplicated hit. -/
theorem dedup_by_full_identity_key_witness :
    dedupKey ⟨some "a.ts", some "load", some 3, some 9, some "method_definition"⟩
      = dedupKey ⟨some "a.ts", some "load", some 3, some 9, some "method_definition"⟩
    ∧ (uniqueLoop []
        [("best hit", some ⟨some "a.ts", some "load", some 3, some 9, some "method_definition"⟩),
         ("worse hit", some ⟨some "a.ts", some "load", some 3, some 9, some "method_definition"⟩)]
        = [("best hit", ⟨some "a.ts", some "load", some 3, some 9, some "method_definition"⟩)]
       ∧ sourcesLoop []
          [some ⟨some "a.ts", some "load", some 3, some 9, some "method_definition"⟩,
           some ⟨some "a.ts", some "load", some 3, some 9, some "method_definition"⟩]
          = [mkSource ⟨some "a.ts", some "load", some 3, some 9, some "method_definition"⟩]) := by
  refine ⟨rfl, ?_⟩
  have h := dedup_by_full_identity_key "best hit" "worse hit"
    ⟨some "a.ts", some "load", some 3, some 9, some "method_definition"⟩
    ⟨some "a.ts", some "load", some 3, some 9, some "method_definition"⟩ [] [] rfl
  exact h

/-- C2 (counterexample): the storage identifier is not a deterministic hash of
`(source_path, start_line, name)`: the very same chunk — identical metadata,
hence identical `(source_path, start_line, name)` triple — receives id
`doc_0` when its document is indexed alone and id `doc_1` when another
document precedes it. The id is positional, not content-derived. -/
theorem store_ids_not_content_hash_cex :
    (add_documents [docFoo] 99).map Prod.fst = ["doc_0"]
    ∧ (add_documents [docBar, docFoo] 99).map Prod.fst = ["doc_0", "doc_1"]
    ∧ (add_documents [docFoo] 99).map (fun t => t.2.2) = [docFoo.metadata]
    ∧ (add_documents [docBar, docFoo] 99).map (fun t => t.2.2) = [docBar.metadata, docFoo.metadata]
    ∧ docFoo.metadata.source = "src/a.ts"
    ∧ docFoo.metadata.start_line = some 1
    ∧ docFoo.metadata.name = some "foo" := by decide

/-- C2 (amended): the storage identifiers produced by `add_documents` are the
positional ids `doc_0, doc_1, ...` in chunk order, for every batch size;
re-running indexing over the same input therefore reproduces the identical id
sequence, but the id of a chunk is a function of its position only. -/
theorem store_ids_positional (documents : List Document) (b : Nat) :
    (add_documents documents b).map Prod.fst
      = idsFrom 0 (documents.flatMap splitDoc).length := by
  unfold add_documents
  exact addBatchesGo_map_fst b _ 0 _ (Nat.le_refl _)

set_option maxRecDepth 10000 in
/-- C3 (counterexample): an `ast` chunk is not passed through to storage
unchanged: a 1200-character AST-extracted chunk is split by the text splitter
into two windowed chunks, so its stored texts differ from the built chunk. -/
theorem splitter_applies_to_ast_cex :
    astBig.metadata.parse_method = "ast"
    ∧ (add_documents [astBig] 99).length = 2
    ∧ ¬ ((add_documents [astBig] 99).map (fun t => t.2.1) = [astBig.page_content]) := by
  decide

/-- C3 (amended): `add_documents` performs no partition by extraction method —
every incoming chunk goes through the same fixed-size overlapping window
splitter, and the stored `(id, text)` sequence is identical whether the first
document is tagged `ast` or `simple`. -/
theorem splitter_ignores_parse_method (content : String) (m : Metadata)
    (docs : List Document) (b : Nat) :
    (add_documents ({ page_content := content, metadata := withParseMethod m "ast" } :: docs) b).map
        (fun t => (t.1, t.2.1))
      = (add_documents ({ page_content := content, metadata := withParseMethod m "simple" } :: docs) b).map
          (fun t => (t.1, t.2.1)) := by
  unfold add_documents
  rw [addBatchesGo_idtext, addBatchesGo_idtext]
  have h : ∀ pm : String,
      (({ page_content := content, metadata := withParseMethod m pm } :: docs).flatMap splitDoc).map
          Document.page_content
        = splitStrings content ++ (docs.flatMap splitDoc).map Document.page_content := by
    intro pm
    simp [splitDoc, List.map_map, Function.comp_def]
  have hl : (({ page_content := content, metadata := withParseMethod m "ast" } :: docs).flatMap splitDoc).length
      = (({ page_content := content, metadata := withParseMethod m "simple" } :: docs).flatMap splitDoc).length := by
    have ha := congrArg List.length (h "ast")
    have hs := congrArg List.length (h "simple")
    simp only [List.length_map] at ha hs
    omega
  rw [hl, h "ast", h "simple"]

/-- C4 (counterexample): a query-time gateway failure (here a timeout raised
by the vector-store query while the store reports 5 documents) is NOT
surfaced to the caller: the chat operation succeeds, answering with empty
retrieved context and an empty source list, indistinguishable from a normal
response. -/
theorem gateway_failure_swallowed_cex :
    chat { message := "q", context := none, use_rag := true }
        (Except.ok 5) (Except.error GwError.timeout)
        (fun _ _ => Except.ok "answer")
      = Except.ok { response := "answer", context_used := "", sources := [] } := rfl

/-- C4 (amended): query-time Index Gateway failures are caught inside the chat
operation and never propagate: whatever the failure (at `count` or at `query`)
and whatever the LLM backend does, the outcome is exactly the outcome of
chatting against an empty corpus — graceful degradation happens inside `chat`,
not in its caller. -/
theorem gateway_failure_degrades_silently (msg : String) (uctx : Option String)
    (n : Nat) (e e2 : GwError) (q : Except GwError (List Hit))
    (llm : String → String → Except String String) :
    chat { message := msg, context := uctx, use_rag := true }
        (Except.ok n) (Except.error e) llm
      = chat { message := msg, context := uctx, use_rag := true }
          (Except.ok 0) (Except.ok []) llm
    ∧ chat { message := msg, context := uctx, use_rag := true }
        (Except.error e2) q llm
      = chat { message := msg, context := uctx, use_rag := true }
          (Except.ok 0) (Except.ok []) llm := by
  constructor
  · unfold chat ragPhase
    rcases n with _ | n <;> simp
  · rfl

/-- C5 (counterexample): for a JavaScript class with exactly two methods the
walker emits 4 chunks, not 3 — the `class_body` node is itself a container
type, so it is chunked too — and the method candidates' enclosing name is the
class body's extracted name `anonymous`, not the class's name `Foo`. -/
theorem js_class_walk_four_chunks_cex :
    (walkTree jsCexCode jsCexFi "javascript" jsCexProgram).length = 4
    ∧ (walkTree jsCexCode jsCexFi "javascript" jsCexProgram).map
        (fun d => (d.metadata.name, d.metadata.parent_class))
      = [(some "Foo", some ""), (some "anonymous", some "Foo"),
         (some "aaaa", some "anonymous"), (some "bbbb", some "anonymous")] := by
  decide

/-- C5 (amended): for a PYTHON class containing exactly two methods the walker
emits exactly 3 extractable candidates — the class (with the enclosing name
current at the class, here top level) plus one per method — and each method
candidate's enclosing name equals the class's extracted name; for
JavaScript/TypeScript classes the additional `class_body` container breaks
this (see the counterexample). -/
theorem python_container_duality (code : String) (fi : FileInfo)
    (cls m1 m2 : String) (ca cb a1 b1 a2 b2 : Nat)
    (hc : 10 ≤ (pyStrip (sliceChars code ca cb)).length)
    (h1 : 10 ≤ (pyStrip (sliceChars code a1 b1)).length)
    (h2 : 10 ≤ (pyStrip (sliceChars code a2 b2)).length) :
    (walkTree code fi "python" (pyModuleNode cls m1 m2 ca cb a1 b1 a2 b2)).map
        (fun d => (d.metadata.name, d.metadata.parent_class))
      = [(some cls, some ""), (some m1, some cls), (some m2, some cls)]
    ∧ (walkTree code fi "python" (pyModuleNode cls m1 m2 ca cb a1 b1 a2 b2)).length = 3 := by
  have hc' : ¬ ((pyStrip (sliceChars code ca cb)).length < 10) := by omega
  have h1' : ¬ ((pyStrip (sliceChars code a1 b1)).length < 10) := by omega
  have h2' : ¬ ((pyStrip (sliceChars code a2 b2)).length < 10) := by omega
  refine ⟨?_, ?_⟩ <;>
    simp [walkTree, walkChildren, walkChild, makeChunk, getNodeName, nameFromDecl,
          findIdentText, pyModuleNode, pyClassNode, pyMethodNode, tsLeaf,
          TSNode.children, TSNode.ty, TSNode.text, TSNode.startByte, TSNode.endByte,
          TSNode.startRow, TSNode.endRow, CHUNK_NODE_TYPES, CONTAINER_NODE_TYPES,
          identKinds, hc', h1', h2']

/-- C5 (witness): the amended Python container-duality theorem at a concrete
class `Game` with methods `load` and `run`. -/
theorem python_container_duality_witness :
    (10 ≤ (pyStrip (sliceChars "0123456789abcdefghijklmnop" 0 26)).length
     ∧ 10 ≤ (pyStrip (sliceChars "0123456789abcdefghijklmnop" 0 13)).length
     ∧ 10 ≤ (pyStrip (sliceChars "0123456789abcdefghijklmnop" 13 26)).length)
    ∧ ((walkTree "0123456789abcdefghijklmnop" { path := "g.py", name := "g.py", ext := ".py" }
          "python" (pyModuleNode "Game" "load" "run" 0 26 0 13 13 26)).map
          (fun d => (d.metadata.name, d.metadata.parent_class))
        = [(some "Game", some ""), (some "load", some "Game"), (some "run", some "Game")]
       ∧ (walkTree "0123456789abcdefghijklmnop" { path := "g.py", name := "g.py", ext := ".py" }
            "python" (pyModuleNode "Game" "load" "run" 0 26 0 13 13 26)).length = 3) :=
  ⟨⟨by decide, by decide, by decide⟩,
   python_container_duality "0123456789abcdefghijklmnop"
     { path := "g.py", name := "g.py", ext := ".py" }
     "Game" "load" "run" 0 26 0 13 13 26 (by decide) (by decide) (by decide)⟩

/-- C6: a function declaration wrapped in an export-like construct yields
exactly one extracted candidate, and its derived name is the inner function's
own identifier (found by recursing into the child whose kind contains
"declaration"), not the wrapper's. -/
theorem export_wrapper_single_candidate (code fname : String) (fi : FileInfo)
    (ea eb fa fb : Nat)
    (h : 10 ≤ (pyStrip (sliceChars code ea eb)).length) :
    (walkTree code fi "javascript" (jsExportProgram fname ea eb fa fb)).map
        (fun d => (d.metadata.name, d.metadata.node_type))
      = [(some fname, some "export_statement")]
    ∧ (walkTree code fi "javascript" (jsExportProgram fname ea eb fa fb)).length = 1 := by
  have h' : ¬ ((pyStrip (sliceChars code ea eb)).length < 10) := by omega
  refine ⟨?_, ?_⟩ <;>
    simp [walkTree, walkChildren, walkChild, makeChunk, getNodeName, nameFromDecl,
          findIdentText, jsExportProgram, jsExportNode, tsLeaf,
          TSNode.children, TSNode.ty, TSNode.text, TSNode.startByte, TSNode.endByte,
          TSNode.startRow, TSNode.endRow, CHUNK_NODE_TYPES, CONTAINER_NODE_TYPES,
          identKinds, containsSub, isSubAt, declNeedle, h']

/-- C6 (witness): the export-wrapper theorem at the concrete source
`export function doThing() { return 1; }`. -/
theorem export_wrapper_single_candidate_witness :
    10 ≤ (pyStrip (sliceChars "export function doThing() \x7b return 1; \x7d" 0 41)).length
    ∧ ((walkTree "export function doThing() \x7b return 1; \x7d"
          { path := "src/u.js", name := "u.js", ext := ".js" } "javascript"
          (jsExportProgram "doThing" 0 41 7 41)).map
          (fun d => (d.metadata.name, d.metadata.node_type))
        = [(some "doThing", some "export_statement")]
       ∧ (walkTree "export function doThing() \x7b return 1; \x7d"
            { path := "src/u.js", name := "u.js", ext := ".js" } "javascript"
            (jsExportProgram "doThing" 0 41 7 41)).length = 1) :=
  ⟨by decide,
   export_wrapper_single_candidate "export function doThing() \x7b return 1; \x7d"
     "doThing" { path := "src/u.js", name := "u.js", ext := ".js" } 0 41 7 41 (by decide)⟩

/-- C7: when the store holds zero documents, the chat result does not depend
on the query operation at all (the query is never consulted), the response is
a success — not an error — with empty context and empty source list; the same
short-circuit holds in the CLI ask command's retrieval context. -/
theorem empty_corpus_short_circuit (msg resp : String)
    (q1 q2 : Except GwError (List Hit))
    (llm : String → String → Except String String) :
    chat { message := msg, context := none, use_rag := true } (Except.ok 0) q1 llm
      = chat { message := msg, context := none, use_rag := true } (Except.ok 0) q2 llm
    ∧ chat { message := msg, context := none, use_rag := true } (Except.ok 0) q1
        (fun _ _ => Except.ok resp)
      = Except.ok { response := resp, context_used := "", sources := [] }
    ∧ (∀ docs1 docs2 : List String,
        askRagContext 0 docs1 = "" ∧ askRagContext 0 docs1 = askRagContext 0 docs2) :=
  ⟨rfl, rfl, fun _ _ => ⟨rfl, rfl⟩⟩

/-- C8: the Chunk Builder returns `none` exactly when the trimmed source slice
is shorter than the fixed threshold 10; in particular a candidate whose
trimmed slice has 5 characters is dropped and one whose trimmed slice has 50
characters is kept. -/
theorem chunk_min_length_threshold :
    (∀ (code : String) (fi : FileInfo) (lang : String) (parent : Option String) (node : TSNode),
        makeChunk code fi lang parent node = none
          ↔ (pyStrip (sliceChars code node.startByte node.endByte)).length < 10)
    ∧ (pyStrip (sliceChars demoCode demoSmallNode.startByte demoSmallNode.endByte)).length = 5
    ∧ makeChunk demoCode demoFi "javascript" none demoSmallNode = none
    ∧ (pyStrip (sliceChars demoCode demoBigNode.startByte demoBigNode.endByte)).length = 50
    ∧ (makeChunk demoCode demoFi "javascript" none demoBigNode).isSome = true := by
  refine ⟨?_, by decide, by decide, by decide, by decide⟩
  intro code fi lang parent node
  by_cases h : (pyStrip (sliceChars code node.startByte node.endByte)).length < 10 <;>
    simp [makeChunk, h]

/-- C9: the fallback whole-file loader is total: a readable, decodable file
yields exactly one chunk whose content is the filename comment line followed
by the full file text, tagged `simple` with no line-range metadata; an
unreadable or undecodable file yields the empty sequence. -/
theorem load_simple_total_shape (fi : FileInfo) (content : String) :
    loadSimple fi (Except.ok content)
      = [{ page_content := "// File: " ++ fi.name ++ "\n" ++ content,
           metadata :=
             { source := fi.path, filename := fi.name, extension := fi.ext,
               node_type := none, name := none, parent_class := none,
               start_line := none, end_line := none, language := none,
               relative_path := none, parse_method := "simple" } }]
    ∧ loadSimple fi (Except.error ()) = [] :=
  ⟨rfl, rfl⟩

/-- C10: every chunk produced by any loading path — chunks built by the chunk
builder, chunks emitted by the AST walker, whole-file fallback chunks, and the
directory loader's simply loaded documents — has content beginning with the
comment line `// File: ` followed by the source file's base name. -/
theorem chunks_begin_with_file_comment :
    (∀ (code : String) (fi : FileInfo) (lang : String) (parent : Option String) (node : TSNode),
        (makeChunk code fi lang parent node).all
          (fun d => strBegins d.page_content ("// File: " ++ fi.name)) = true)
    ∧ (∀ (code : String) (fi : FileInfo) (lang : String) (parent : Option String) (f : TSForest),
        (walkChildren code fi lang parent f).all
          (fun d => strBegins d.page_content ("// File: " ++ fi.name)) = true)
    ∧ (∀ (fi : FileInfo) (readResult : Except Unit String),
        (loadSimple fi readResult).all
          (fun d => strBegins d.page_content ("// File: " ++ fi.name)) = true)
    ∧ (∀ (fi : FileInfo) (relPath content : String),
        strBegins (loaderSimpleDoc fi relPath content).page_content
          ("// File: " ++ fi.name) = true) := by
  refine ⟨makeChunk_begins, walkChildren_begins, ?_, ?_⟩
  · intro fi readResult
    cases readResult with
    | error e => rfl
    | ok content =>
        simp only [loadSimple, List.all_cons, List.all_nil, Bool.and_true]
        rw [String.append_assoc]
        exact strBegins_append ("// File: " ++ fi.name) ("\n" ++ content)
  · intro fi relPath content
    show strBegins ("// File: " ++ fi.name ++ "\n" ++ content) ("// File: " ++ fi.name) = true
    rw [String.append_assoc]
    exact strBegins_append ("// File: " ++ fi.name) ("\n" ++ content)
